import Mathlib

/-!
Verification development for `src/src/libcred_macos.cpp` (namespace `libcred`),
the macOS keychain adapter of the libcred credential-store library.

Shallow embedding conventions:
* Byte strings (`std::string` payloads, `CFData` contents) are modelled as
  `List Nat` (`Bytes`).  A C++ `std::string` may contain embedded NUL bytes;
  passing it through `.c_str()` hands the callee only the prefix before the
  first NUL, which is modelled by `cstr`.
* The macOS Security framework (SecItemAdd / SecItemUpdate /
  SecItemCopyMatching / SecItemDelete) is the external backend of the spec
  (section 4.2).  It is modelled as a list of keychain records (`Keychain`)
  with the documented status-code behaviour: `errSecItemNotFound` on empty
  matches, `errSecDuplicateItem` on duplicate inserts, `errSecSuccess`
  otherwise.  `OSStatus` is modelled as `Int`.
* Each C++ function is split into the backend round trip and a pure
  "core" continuation that models the source lines after the backend call
  (branching on the returned status).  The full function wires the core to
  the modelled backend; claims about arbitrary backend failures are stated
  on the cores, which receive the status as a parameter.
* `SecCopyErrorMessageString` together with `CFStringGetCStringPtr` is
  modelled by a message table `msgOf : Int → Option String`, where `none`
  covers the case in which no C-string pointer is obtainable.
-/

namespace libcred

/-- Byte strings: contents of `std::string` / `CFData` payloads. -/
abbrev Bytes := List Nat

/-- The `kSecClass` values used by the source: `kSecClassInternetPassword`
(set/get/delete/find_password) and `kSecClassGenericPassword`
(find_credentials / getCredentialsForItem). -/
inductive SecClass where
  | internetPassword
  | genericPassword
deriving DecidableEq, Repr

/-- A keychain record: item class, optional `kSecAttrServer` attribute,
optional `kSecAttrService` attribute, optional `kSecAttrAccount` attribute,
and the secret payload (`kSecValueData`). -/
structure Entry where
  cls : SecClass
  server : Option Bytes
  service : Option Bytes
  account : Option Bytes
  data : Bytes
deriving DecidableEq, Repr

/-- The modelled backend store: the list of keychain records. -/
abbrev Keychain := List Entry

/-- A backend query dictionary: the item class plus the attribute values it
constrains (`none` means the attribute is not part of the query). -/
structure KCQuery where
  cls : SecClass
  server : Option Bytes
  service : Option Bytes
  account : Option Bytes
deriving DecidableEq, Repr

/-- Modelling `.c_str()`: a `std::string` handed to a C API as a NUL-terminated
C string is truncated at its first NUL byte. -/
def cstr (s : Bytes) : Bytes := s.takeWhile (fun b => b != 0)

/-- Embedding of `CFStringToStdString` (lines 14-39): converting a CFString
into a `std::string` goes through a NUL-terminated buffer
(`CFStringGetCStringPtr` / `CFStringGetCString`), so the result is the
contents truncated at the first NUL byte. -/
def CFStringToStdString (s : Bytes) : Bytes := s.takeWhile (fun b => b != 0)

/-- Does a query constraint on one attribute accept the attribute of a record? -/
def attrMatches (qv ev : Option Bytes) : Bool :=
  match qv with
  | none => true
  | some v => decide (ev = some v)

/-- Does a record match a query dictionary? -/
def entryMatches (q : KCQuery) (e : Entry) : Bool :=
  decide (q.cls = e.cls) && attrMatches q.server e.server
    && attrMatches q.service e.service && attrMatches q.account e.account

/-- The key attributes of a record, as a query matching exactly that key. -/
def keyOf (e : Entry) : KCQuery :=
  { cls := e.cls, server := e.server, service := e.service, account := e.account }

/-- Status `errSecSuccess` (OSStatus 0). -/
def errSecSuccess : Int := 0

/-- Status `errSecItemNotFound` (OSStatus -25300). -/
def errSecItemNotFound : Int := -25300

/-- Status `errSecDuplicateItem` (OSStatus -25299). -/
def errSecDuplicateItem : Int := -25299

/-- Modelled from the spec: backend insert (`SecItemAdd`).  Fails with
`errSecDuplicateItem` when a record with the same key attributes already
exists, otherwise appends the record and succeeds. -/
def secItemAdd (kc : Keychain) (e : Entry) : Int × Keychain :=
  if kc.any (entryMatches (keyOf e)) then (errSecDuplicateItem, kc)
  else (errSecSuccess, kc ++ [e])

/-- Modelled from the spec: backend update (`SecItemUpdate`).  Replaces the
payload of every record matching the query; fails with `errSecItemNotFound`
when nothing matches. -/
def secItemUpdate (kc : Keychain) (q : KCQuery) (newData : Bytes) : Int × Keychain :=
  if kc.any (entryMatches q) then
    (errSecSuccess,
      kc.map (fun e => if entryMatches q e then { e with data := newData } else e))
  else (errSecItemNotFound, kc)

/-- Modelled from the spec: backend single-item lookup (`SecItemCopyMatching`
with `kSecMatchLimitOne`).  Returns the first matching record, or
`errSecItemNotFound`. -/
def secItemCopyMatchingOne (kc : Keychain) (q : KCQuery) : Int × Option Entry :=
  match kc.find? (entryMatches q) with
  | some e => (errSecSuccess, some e)
  | none => (errSecItemNotFound, none)

/-- Modelled from the spec: backend enumeration (`SecItemCopyMatching` with
`kSecMatchLimitAll`).  Returns every matching record, or `errSecItemNotFound`
when there are none. -/
def secItemCopyMatchingAll (kc : Keychain) (q : KCQuery) : Int × List Entry :=
  let l := kc.filter (entryMatches q)
  if l.isEmpty then (errSecItemNotFound, []) else (errSecSuccess, l)

/-- Modelled from the spec: backend deletion (`SecItemDelete`).  Removes every
matching record; fails with `errSecItemNotFound` when nothing matches. -/
def secItemDelete (kc : Keychain) (q : KCQuery) : Int × Keychain :=
  if kc.any (entryMatches q) then
    (errSecSuccess, kc.filter (fun e => !(entryMatches q e)))
  else (errSecItemNotFound, kc)

/-- Modelled from the spec: the uniform tri-state result contract
(Success / NonFatalFailure / Error) declared in `libcred.hpp`, which is not
part of the excerpt.  The constructor names follow the uses in the source. -/
inductive LIBCRED_RESULT where
  | SUCCESS
  | FAIL_NONFATAL
  | FAIL_ERROR
deriving DecidableEq, Repr

export LIBCRED_RESULT (SUCCESS FAIL_NONFATAL FAIL_ERROR)

/-- Modelled from the spec: the `Credentials` (account, secret) pair declared
in `libcred.hpp`, which is not part of the excerpt.  Default construction
(`Credentials cred;`) gives two empty strings. -/
structure Credentials where
  account : Bytes
  password : Bytes
deriving DecidableEq, Repr

/-- Embedding of `errorStatusToString` (lines 41-59).  `msgOf` models
`SecCopyErrorMessageString` followed by `CFStringGetCStringPtr`:
`none` is the branch in which no C-string pointer is available and the
generic fallback string is used. -/
def errorStatusToString (msgOf : Int → Option String) (status : Int) : String :=
  match msgOf status with
  | some s => s
  | none => "An unknown error occurred."

/-- The query dictionary built by set/get/delete:
class `kSecClassInternetPassword`, `kSecAttrServer` = service,
`kSecAttrAccount` = account (both passed through `.c_str()`). -/
def credKey (service account : Bytes) : KCQuery :=
  { cls := .internetPassword, server := some (cstr service), service := none,
    account := some (cstr account) }

/-- The record built by `AddPassword` (lines 66-78): class
`kSecClassInternetPassword`, `kSecAttrServer` = service,
`kSecAttrAccount` = account (via `.c_str()`), `kSecValueData` = the full
password bytes. -/
def newInternetEntry (service account password : Bytes) : Entry :=
  { cls := .internetPassword, server := some (cstr service), service := none,
    account := some (cstr account), data := password }

/-- The query dictionary built by `find_password` (lines 240-252):
class `kSecClassInternetPassword`, `kSecAttrServer` = service. -/
def serviceKey (service : Bytes) : KCQuery :=
  { cls := .internetPassword, server := some (cstr service), service := none,
    account := none }

/-- The query dictionary built by `find_credentials` (lines 325-334):
class `kSecClassGenericPassword`, `kSecAttrService` = service. -/
def genericServiceKey (service : Bytes) : KCQuery :=
  { cls := .genericPassword, server := none, service := some (cstr service),
    account := none }

/-- Core of `AddPassword` (lines 83-89): the branch on the `SecItemAdd`
status.  `kc2` is the keychain after the backend call, `error` the incoming
contents of the `*error` out-parameter. -/
def AddPassword_core (msgOf : Int → Option String) (status : Int) (kc2 : Keychain)
    (error : String) : LIBCRED_RESULT × Keychain × String :=
  if status ≠ errSecSuccess then (FAIL_ERROR, kc2, errorStatusToString msgOf status)
  else (SUCCESS, kc2, error)

/-- Embedding of `AddPassword` (lines 61-90): builds an
`kSecClassInternetPassword` record with `kSecAttrServer` = service,
`kSecAttrAccount` = account (via `.c_str()`) and `kSecValueData` = the full
password bytes (`CFDataCreate(password.c_str(), password.length())`), then
calls `SecItemAdd`. -/
def AddPassword (msgOf : Int → Option String) (kc : Keychain)
    (service account password : Bytes) (error : String) :
    LIBCRED_RESULT × Keychain × String :=
  AddPassword_core msgOf
    (secItemAdd kc (newInternetEntry service account password)).1
    (secItemAdd kc (newInternetEntry service account password)).2
    error

/-- Core of `set_password` (lines 126-143): the branch on the
`SecItemUpdate` status.  On `errSecItemNotFound` it tail-calls
`AddPassword` on the keychain left by the failed update. -/
def set_password_core (msgOf : Int → Option String) (status : Int) (kc2 : Keychain)
    (service account password : Bytes) (error : String) :
    LIBCRED_RESULT × Keychain × String :=
  if status = errSecItemNotFound then
    AddPassword msgOf kc2 service account password error
  else if status ≠ errSecSuccess then
    (FAIL_ERROR, kc2, errorStatusToString msgOf status)
  else (SUCCESS, kc2, error)

/-- Embedding of `set_password` (lines 92-144): `SecItemUpdate` against the
exact (service, account) key with the new password as update payload,
followed by the core branch. -/
def set_password (msgOf : Int → Option String) (kc : Keychain)
    (service account password : Bytes) (error : String) :
    LIBCRED_RESULT × Keychain × String :=
  set_password_core msgOf
    (secItemUpdate kc (credKey service account) password).1
    (secItemUpdate kc (credKey service account) password).2
    service account password error

/-- Core of `get_password` (lines 176-190): the branch on the
`SecItemCopyMatching` status.  `payload` is the `CFData` contents returned
on success; the success branch copies it into `*password` verbatim with an
explicit byte length (`CFDataGetBytePtr` / `CFDataGetLength`). -/
def get_password_core (msgOf : Int → Option String) (status : Int)
    (payload : Bytes) (password : Bytes) (error : String) :
    LIBCRED_RESULT × Bytes × String :=
  if status = errSecItemNotFound then (FAIL_NONFATAL, password, error)
  else if status ≠ errSecSuccess then
    (FAIL_ERROR, password, errorStatusToString msgOf status)
  else (SUCCESS, payload, error)

/-- Embedding of `get_password` (lines 146-191): single-item lookup by the
exact (service, account) key with `kSecReturnData`, then the core branch. -/
def get_password (msgOf : Int → Option String) (kc : Keychain)
    (service account : Bytes) (password : Bytes) (error : String) :
    LIBCRED_RESULT × Bytes × String :=
  get_password_core msgOf
    (secItemCopyMatchingOne kc (credKey service account)).1
    (((secItemCopyMatchingOne kc (credKey service account)).2.map Entry.data).getD [])
    password error

/-- Core of `delete_password` (lines 221-232): the branch on the
`SecItemDelete` status. -/
def delete_password_core (msgOf : Int → Option String) (status : Int)
    (kc2 : Keychain) (error : String) : LIBCRED_RESULT × Keychain × String :=
  if status = errSecItemNotFound then (FAIL_NONFATAL, kc2, error)
  else if status ≠ errSecSuccess then
    (FAIL_ERROR, kc2, errorStatusToString msgOf status)
  else (SUCCESS, kc2, error)

/-- Embedding of `delete_password` (lines 193-233): `SecItemDelete` against
the exact (service, account) key, then the core branch. -/
def delete_password (msgOf : Int → Option String) (kc : Keychain)
    (service account : Bytes) (error : String) :
    LIBCRED_RESULT × Keychain × String :=
  delete_password_core msgOf
    (secItemDelete kc (credKey service account)).1
    (secItemDelete kc (credKey service account)).2
    error

/-- Core of `find_password` (lines 262-277): the branch on the
`SecItemCopyMatching` status; the success branch copies the returned
`CFData` contents into `*password` verbatim with an explicit byte length. -/
def find_password_core (msgOf : Int → Option String) (status : Int)
    (payload : Bytes) (password : Bytes) (error : String) :
    LIBCRED_RESULT × Bytes × String :=
  if status = errSecItemNotFound then (FAIL_NONFATAL, password, error)
  else if status ≠ errSecSuccess then
    (FAIL_ERROR, password, errorStatusToString msgOf status)
  else (SUCCESS, payload, error)

/-- Embedding of `find_password` (lines 235-278): single-item lookup by
service alone (any account), then the core branch. -/
def find_password (msgOf : Int → Option String) (kc : Keychain)
    (service : Bytes) (password : Bytes) (error : String) :
    LIBCRED_RESULT × Bytes × String :=
  find_password_core msgOf
    (secItemCopyMatchingOne kc (serviceKey service)).1
    (((secItemCopyMatchingOne kc (serviceKey service)).2.map Entry.data).getD [])
    password error

/-- Core of `getCredentialsForItem` (lines 295-318): the branch on the
per-item `SecItemCopyMatching` status.  On success the `v_Data` payload is
decoded by `CFStringCreateFromExternalRepresentation` — modelled by the
abstract external decoder `d` — and both account and password pass through
`CFStringToStdString`; on any failure the default-constructed `Credentials`
(two empty strings) is returned. -/
def getCredentialsForItem_core (d : Bytes → Bytes) (acct : Bytes) (status : Int)
    (payload : Bytes) : Credentials :=
  if status = errSecSuccess then
    { account := CFStringToStdString acct,
      password := CFStringToStdString (d payload) }
  else { account := [], password := [] }

/-- The re-query built by `getCredentialsForItem` (lines 285-293):
class `kSecClassGenericPassword` with the `kSecAttrService` and
`kSecAttrAccount` attributes, `kSecMatchLimitOne`, returning attributes
and data. -/
def itemRequery (item : Entry) : KCQuery :=
  { cls := .genericPassword, server := none, service := item.service,
    account := item.account }

/-- Embedding of `getCredentialsForItem` (lines 280-319): re-queries the
keychain for the (service, account) of the item and normalizes the response into
a `Credentials` value. -/
def getCredentialsForItem (d : Bytes → Bytes) (kc : Keychain) (item : Entry) :
    Credentials :=
  getCredentialsForItem_core d (item.account.getD [])
    (secItemCopyMatchingOne kc (itemRequery item)).1
    (((secItemCopyMatchingOne kc (itemRequery item)).2.map Entry.data).getD [])

/-- Core of `find_credentials` (lines 342-370): the branch on the
enumeration status.  On success every returned item is mapped through the
per-item normalizer and pushed onto the vector of the caller; on
`errSecItemNotFound` the vector is left untouched with `FAIL_NONFATAL`. -/
def find_credentials_core (msgOf : Int → Option String)
    (perItem : Entry → Credentials) (status : Int) (results : List Entry)
    (credentials : List Credentials) (error : String) :
    LIBCRED_RESULT × List Credentials × String :=
  if status = errSecSuccess then
    (SUCCESS, credentials ++ results.map perItem, error)
  else if status = errSecItemNotFound then (FAIL_NONFATAL, credentials, error)
  else (FAIL_ERROR, credentials, errorStatusToString msgOf status)

/-- Embedding of `find_credentials` (lines 321-371): enumerates
`kSecClassGenericPassword` items with `kSecAttrService` = service
(`kSecMatchLimitAll`), then the core branch with
`getCredentialsForItem` as the per-item normalizer. -/
def find_credentials (d : Bytes → Bytes) (msgOf : Int → Option String)
    (kc : Keychain) (service : Bytes) (credentials : List Credentials)
    (error : String) : LIBCRED_RESULT × List Credentials × String :=
  find_credentials_core msgOf (getCredentialsForItem d kc)
    (secItemCopyMatchingAll kc (genericServiceKey service)).1
    (secItemCopyMatchingAll kc (genericServiceKey service)).2
    credentials error

/-!
Resource-lifetime instrumentation for the CoreFoundation objects created and
released by `set_password` / `AddPassword` / `errorStatusToString`.
Each trace lists, in program order, the `CFCreate`/`CFRelease` events of one
call, with one tag per source-level variable holding a created object.  The
trace is a function of the backend status codes because the set of executed
events depends only on them.
-/

/-- One CoreFoundation object-lifetime event. -/
inductive CFEvent where
  | alloc (tag : String)
  | release (tag : String)
deriving DecidableEq, Repr

/-- How many objects with the given tag the trace creates. -/
def allocCount (tr : List CFEvent) (t : String) : Nat :=
  (tr.filter (fun e => decide (e = CFEvent.alloc t))).length

/-- How many times the trace releases an object with the given tag. -/
def releaseCount (tr : List CFEvent) (t : String) : Nat :=
  (tr.filter (fun e => decide (e = CFEvent.release t))).length

/-- The tag of an event. -/
def CFEvent.tag : CFEvent → String
  | .alloc t => t
  | .release t => t

/-- A trace is balanced when every object it mentions is released exactly as
many times as it is created. -/
def balancedB (tr : List CFEvent) : Bool :=
  (tr.map CFEvent.tag).all (fun t => allocCount tr t == releaseCount tr t)

/-- Object-lifetime trace of `errorStatusToString` (lines 41-59): the
message CFString from `SecCopyErrorMessageString` is released before
returning. -/
def errorStatusToString_trace : List CFEvent :=
  [.alloc "errorMessageString", .release "errorMessageString"]

/-- Object-lifetime trace of `AddPassword` (lines 61-90), as a function of
the `SecItemAdd` status: four CF objects are created (`serviceRef`,
`accountRef`, `passwordDataRef`, `attributes`); neither the error return
(line 86) nor the success return (line 89) releases any of them. -/
def AddPassword_trace (addStatus : Int) : List CFEvent :=
  [.alloc "serviceRef", .alloc "accountRef", .alloc "passwordDataRef",
   .alloc "attributes"]
  ++ (if addStatus ≠ errSecSuccess then errorStatusToString_trace else [])

/-- Object-lifetime trace of `set_password` (lines 92-144), as a function of
the `SecItemUpdate` and (when reached) `SecItemAdd` statuses: five CF
objects are created; the `errSecItemNotFound` return (line 128) and the
error return (line 133) release none of them, and only the fall-through
success path (lines 137-141) releases all five. -/
def set_password_trace (updateStatus addStatus : Int) : List CFEvent :=
  [.alloc "cfAccount", .alloc "cfService", .alloc "cfNewPassword",
   .alloc "query", .alloc "update"]
  ++ (if updateStatus = errSecItemNotFound then AddPassword_trace addStatus
      else if updateStatus ≠ errSecSuccess then errorStatusToString_trace
      else [.release "cfAccount", .release "cfService", .release "cfNewPassword",
            .release "query", .release "update"])

/-! ### Helper lemmas -/

/-- Updating the payload of a record does not change whether it matches a query. -/
theorem entryMatches_setData (q : KCQuery) (e : Entry) (d : Bytes) :
    entryMatches q { e with data := d } = entryMatches q e := rfl

/-- Lemma: `find?` commutes with a map that preserves the predicate. -/
theorem find?_map_of_pred (p : Entry → Bool) (f : Entry → Entry)
    (hp : ∀ e, p (f e) = p e) :
    ∀ kc : Keychain, (kc.map f).find? p = (kc.find? p).map f
  | [] => rfl
  | e :: kc => by
    cases h : p e with
    | true =>
      have h1 : p (f e) = true := by rw [hp]; exact h
      rw [List.map_cons, List.find?_cons_of_pos _ h1, List.find?_cons_of_pos _ h]
      rfl
    | false =>
      have h1 : p (f e) = false := by rw [hp]; exact h
      rw [List.map_cons, List.find?_cons_of_neg _ (by simp [h1]),
        List.find?_cons_of_neg _ (by simp [h]), find?_map_of_pred p f hp kc]

/-- Lemma: `find?` skips a prefix containing no match. -/
theorem find?_append_of_none (p : Entry → Bool) (l₂ : List Entry) :
    ∀ l₁ : List Entry, l₁.find? p = none → (l₁ ++ l₂).find? p = l₂.find? p
  | [], _ => rfl
  | e :: l₁, h => by
    have he : p e = false := by
      cases he : p e with
      | true => rw [List.find?_cons_of_pos _ he] at h; exact absurd h (by simp)
      | false => rfl
    rw [List.find?_cons_of_neg _ (by simp [he])] at h
    rw [List.cons_append, List.find?_cons_of_neg _ (by simp [he]),
      find?_append_of_none p l₂ l₁ h]

/-- After `secItemDelete` removed every match, nothing matches any more. -/
theorem any_filter_not (p : Entry → Bool) (kc : Keychain) :
    (kc.filter (fun e => !(p e))).any p = false := by
  simp only [List.any_eq_false, List.mem_filter]
  intro e h
  simpa using h.2

/-- Behaviour of `SecItemUpdate` when some record matches. -/
theorem secItemUpdate_of_any_true {kc : Keychain} {q : KCQuery} (d : Bytes)
    (h : kc.any (entryMatches q) = true) :
    secItemUpdate kc q d
      = (errSecSuccess,
         kc.map (fun e => if entryMatches q e then { e with data := d } else e)) := by
  simp [secItemUpdate, h]

/-- Behaviour of `SecItemUpdate` when no record matches. -/
theorem secItemUpdate_of_any_false {kc : Keychain} {q : KCQuery} (d : Bytes)
    (h : kc.any (entryMatches q) = false) :
    secItemUpdate kc q d = (errSecItemNotFound, kc) := by
  simp [secItemUpdate, h]

/-- Evaluating `set_password_core` on the `errSecItemNotFound` status falls back to
`AddPassword`. -/
theorem set_password_core_notFound (msgOf : Int → Option String) (kc2 : Keychain)
    (service account password : Bytes) (err : String) :
    set_password_core msgOf errSecItemNotFound kc2 service account password err
      = AddPassword msgOf kc2 service account password err := by
  unfold set_password_core
  rw [if_pos rfl]

/-- Evaluating `set_password_core` on the success status. -/
theorem set_password_core_success (msgOf : Int → Option String) (kc2 : Keychain)
    (service account password : Bytes) (err : String) :
    set_password_core msgOf errSecSuccess kc2 service account password err
      = (SUCCESS, kc2, err) := by
  unfold set_password_core
  rw [if_neg (by decide), if_neg (by decide)]

/-- Evaluating `set_password_core` on any other status. -/
theorem set_password_core_error (msgOf : Int → Option String) (st : Int)
    (kc2 : Keychain) (service account password : Bytes) (err : String)
    (h1 : st ≠ errSecItemNotFound) (h2 : st ≠ errSecSuccess) :
    set_password_core msgOf st kc2 service account password err
      = (FAIL_ERROR, kc2, errorStatusToString msgOf st) := by
  unfold set_password_core
  rw [if_neg h1, if_pos h2]

/-- Evaluating `AddPassword_core` on the success status. -/
theorem AddPassword_core_success (msgOf : Int → Option String) (kc2 : Keychain)
    (err : String) :
    AddPassword_core msgOf errSecSuccess kc2 err = (SUCCESS, kc2, err) := by
  unfold AddPassword_core
  rw [if_neg (by decide)]

/-- Evaluating `AddPassword_core` on any failure status. -/
theorem AddPassword_core_error (msgOf : Int → Option String) (st : Int)
    (kc2 : Keychain) (err : String) (h : st ≠ errSecSuccess) :
    AddPassword_core msgOf st kc2 err
      = (FAIL_ERROR, kc2, errorStatusToString msgOf st) := by
  unfold AddPassword_core
  rw [if_pos h]

/-- Evaluating `get_password_core` on the `errSecItemNotFound` status. -/
theorem get_password_core_notFound (msgOf : Int → Option String)
    (pay pw : Bytes) (err : String) :
    get_password_core msgOf errSecItemNotFound pay pw err
      = (FAIL_NONFATAL, pw, err) := by
  unfold get_password_core
  rw [if_pos rfl]

/-- Evaluating `get_password_core` on the success status. -/
theorem get_password_core_success (msgOf : Int → Option String)
    (pay pw : Bytes) (err : String) :
    get_password_core msgOf errSecSuccess pay pw err = (SUCCESS, pay, err) := by
  unfold get_password_core
  rw [if_neg (by decide), if_neg (by decide)]

/-- Evaluating `get_password_core` on any other status. -/
theorem get_password_core_error (msgOf : Int → Option String) (st : Int)
    (pay pw : Bytes) (err : String)
    (h1 : st ≠ errSecItemNotFound) (h2 : st ≠ errSecSuccess) :
    get_password_core msgOf st pay pw err
      = (FAIL_ERROR, pw, errorStatusToString msgOf st) := by
  unfold get_password_core
  rw [if_neg h1, if_pos h2]

/-- Evaluating `find_password_core` on the `errSecItemNotFound` status. -/
theorem find_password_core_notFound (msgOf : Int → Option String)
    (pay pw : Bytes) (err : String) :
    find_password_core msgOf errSecItemNotFound pay pw err
      = (FAIL_NONFATAL, pw, err) := by
  unfold find_password_core
  rw [if_pos rfl]

/-- Evaluating `find_password_core` on the success status. -/
theorem find_password_core_success (msgOf : Int → Option String)
    (pay pw : Bytes) (err : String) :
    find_password_core msgOf errSecSuccess pay pw err = (SUCCESS, pay, err) := by
  unfold find_password_core
  rw [if_neg (by decide), if_neg (by decide)]

/-- Evaluating `find_password_core` on any other status. -/
theorem find_password_core_error (msgOf : Int → Option String) (st : Int)
    (pay pw : Bytes) (err : String)
    (h1 : st ≠ errSecItemNotFound) (h2 : st ≠ errSecSuccess) :
    find_password_core msgOf st pay pw err
      = (FAIL_ERROR, pw, errorStatusToString msgOf st) := by
  unfold find_password_core
  rw [if_neg h1, if_pos h2]

/-- Evaluating `delete_password_core` on the `errSecItemNotFound` status. -/
theorem delete_password_core_notFound (msgOf : Int → Option String)
    (kc2 : Keychain) (err : String) :
    delete_password_core msgOf errSecItemNotFound kc2 err
      = (FAIL_NONFATAL, kc2, err) := by
  unfold delete_password_core
  rw [if_pos rfl]

/-- Evaluating `delete_password_core` on the success status. -/
theorem delete_password_core_success (msgOf : Int → Option String)
    (kc2 : Keychain) (err : String) :
    delete_password_core msgOf errSecSuccess kc2 err = (SUCCESS, kc2, err) := by
  unfold delete_password_core
  rw [if_neg (by decide), if_neg (by decide)]

/-- Evaluating `delete_password_core` on any other status. -/
theorem delete_password_core_error (msgOf : Int → Option String) (st : Int)
    (kc2 : Keychain) (err : String)
    (h1 : st ≠ errSecItemNotFound) (h2 : st ≠ errSecSuccess) :
    delete_password_core msgOf st kc2 err
      = (FAIL_ERROR, kc2, errorStatusToString msgOf st) := by
  unfold delete_password_core
  rw [if_neg h1, if_pos h2]

/-- Evaluating `getCredentialsForItem_core` on the success status. -/
theorem getCredentialsForItem_core_success (d : Bytes → Bytes)
    (acct pay : Bytes) :
    getCredentialsForItem_core d acct errSecSuccess pay
      = { account := CFStringToStdString acct,
          password := CFStringToStdString (d pay) } := by
  unfold getCredentialsForItem_core
  rw [if_pos rfl]

/-- Evaluating `getCredentialsForItem_core` on any failure status. -/
theorem getCredentialsForItem_core_failure (d : Bytes → Bytes)
    (acct : Bytes) (st : Int) (pay : Bytes) (h : st ≠ errSecSuccess) :
    getCredentialsForItem_core d acct st pay = { account := [], password := [] } := by
  unfold getCredentialsForItem_core
  rw [if_neg h]

/-- Evaluating `find_credentials_core` on the success status. -/
theorem find_credentials_core_success (msgOf : Int → Option String)
    (perItem : Entry → Credentials) (results : List Entry)
    (creds : List Credentials) (err : String) :
    find_credentials_core msgOf perItem errSecSuccess results creds err
      = (SUCCESS, creds ++ results.map perItem, err) := by
  unfold find_credentials_core
  rw [if_pos rfl]

/-- Evaluating `find_credentials_core` on the `errSecItemNotFound` status. -/
theorem find_credentials_core_notFound (msgOf : Int → Option String)
    (perItem : Entry → Credentials) (results : List Entry)
    (creds : List Credentials) (err : String) :
    find_credentials_core msgOf perItem errSecItemNotFound results creds err
      = (FAIL_NONFATAL, creds, err) := by
  unfold find_credentials_core
  rw [if_neg (by decide), if_pos rfl]

/-- Evaluating `find_credentials_core` on any other status. -/
theorem find_credentials_core_error (msgOf : Int → Option String)
    (perItem : Entry → Credentials) (st : Int) (results : List Entry)
    (creds : List Credentials) (err : String)
    (h1 : st ≠ errSecSuccess) (h2 : st ≠ errSecItemNotFound) :
    find_credentials_core msgOf perItem st results creds err
      = (FAIL_ERROR, creds, errorStatusToString msgOf st) := by
  unfold find_credentials_core
  rw [if_neg h1, if_neg h2]

/-! ### Claim theorems -/

/-- Claim C1 (code bug evidence): inserting a credential via `set_password`
and then enumerating its service with `find_credentials` does not return it:
`set_password` stores a `kSecClassInternetPassword` item keyed by
`kSecAttrServer`, while `find_credentials` queries
`kSecClassGenericPassword` items keyed by `kSecAttrService`, so the
enumeration reports `FAIL_NONFATAL` with an empty list instead of the
N = 1 decoded (account, secret) pairs the claim requires. -/
theorem find_credentials_misses_inserted_items :
    (set_password (fun _ => none) [] [1] [2] [3] "").1 = SUCCESS ∧
    find_credentials (fun b => b) (fun _ => none)
        (set_password (fun _ => none) [] [1] [2] [3] "").2.1 [1] [] ""
      = (FAIL_NONFATAL, [], "") := by
  constructor
  · rfl
  · rfl

/-- Claim C2 (code bug evidence): the object-lifetime trace of
`set_password` is unbalanced on the update-miss path (the five CF objects
created at lines 97-121 are never released when line 128 returns), and the
trace of `AddPassword` is unbalanced on both of its paths (its four CF
objects are never released), contradicting the release-exactly-once claim. -/
theorem set_password_leaks_objects :
    balancedB (set_password_trace errSecItemNotFound errSecSuccess) = false ∧
    balancedB (set_password_trace errSecDuplicateItem errSecSuccess) = false ∧
    balancedB (AddPassword_trace errSecSuccess) = false ∧
    balancedB (AddPassword_trace errSecDuplicateItem) = false ∧
    balancedB (set_password_trace errSecSuccess errSecSuccess) = true := by
  refine ⟨by decide, by decide, by decide, by decide, by decide⟩

/-- The record built by `AddPassword` stores the full password bytes. -/
theorem newInternetEntry_data (service account password : Bytes) :
    (newInternetEntry service account password).data = password := rfl

/-- Applying `AddPassword` to a key no existing record matches appends a record
carrying the full secret bytes and succeeds. -/
theorem AddPassword_fresh (msgOf : Int → Option String) (kc : Keychain)
    (service account password : Bytes) (err : String)
    (h : kc.any (entryMatches (credKey service account)) = false) :
    AddPassword msgOf kc service account password err
      = (SUCCESS, kc ++ [newInternetEntry service account password], err) := by
  have hkey : keyOf (newInternetEntry service account password)
      = credKey service account := rfl
  have h2 : secItemAdd kc (newInternetEntry service account password)
      = (errSecSuccess, kc ++ [newInternetEntry service account password]) := by
    unfold secItemAdd
    rw [if_neg ?hc]
    case hc =>
      rw [hkey, h]
      simp
  simp [AddPassword, h2, AddPassword_core_success]

/-- Claim C3: for all (service, account, secret), a `set_password` call
returning `SUCCESS` followed by `get_password` on the same key returns
exactly the stored secret together with `SUCCESS` (and leaves the error
string of the caller untouched). -/
theorem set_then_get_roundtrip (msgOf msgOf2 : Int → Option String)
    (kc : Keychain) (service account password pw0 : Bytes) (err err2 : String)
    (h : (set_password msgOf kc service account password err).1 = SUCCESS) :
    get_password msgOf2 (set_password msgOf kc service account password err).2.1
      service account pw0 err2 = (SUCCESS, password, err2) := by
  clear h
  by_cases hA : kc.any (entryMatches (credKey service account)) = true
  · -- the update hit: every record matching the key now carries the new secret
    have hupd := secItemUpdate_of_any_true password hA
    have hset : (set_password msgOf kc service account password err).2.1
        = kc.map (fun e => if entryMatches (credKey service account) e then
            { e with data := password } else e) := by
      simp [set_password, hupd, set_password_core_success]
    cases hf : kc.find? (entryMatches (credKey service account)) with
    | none =>
      exfalso
      obtain ⟨x, hx, hpx⟩ := List.any_eq_true.mp hA
      exact (List.find?_eq_none.mp hf x hx) hpx
    | some e0 =>
      have hpe0 : entryMatches (credKey service account) e0 = true :=
        List.find?_some hf
      have hpf : ∀ e, entryMatches (credKey service account)
          (if entryMatches (credKey service account) e then
            { e with data := password } else e)
          = entryMatches (credKey service account) e := by
        intro e
        by_cases hq : entryMatches (credKey service account) e = true
        · rw [if_pos hq, entryMatches_setData]
        · rw [if_neg hq]
      have hfind2 : (kc.map (fun e => if entryMatches (credKey service account) e then
          { e with data := password } else e)).find?
            (entryMatches (credKey service account))
          = some { e0 with data := password } := by
        rw [find?_map_of_pred _ _ hpf kc, hf, Option.map]
        rw [if_pos hpe0]
      have hone : secItemCopyMatchingOne
          (kc.map (fun e => if entryMatches (credKey service account) e then
            { e with data := password } else e)) (credKey service account)
          = (errSecSuccess, some { e0 with data := password }) := by
        simp [secItemCopyMatchingOne, hfind2]
      rw [hset]
      simp [get_password, hone, get_password_core_success]
  · -- the update missed: AddPassword appends a fresh record with the secret
    have hA' : kc.any (entryMatches (credKey service account)) = false := by
      simpa using hA
    have hupd := secItemUpdate_of_any_false password hA'
    have hset : (set_password msgOf kc service account password err).2.1
        = kc ++ [newInternetEntry service account password] := by
      simp [set_password, hupd, set_password_core_notFound,
        AddPassword_fresh msgOf kc service account password err hA']
    have hnone : kc.find? (entryMatches (credKey service account)) = none :=
      List.find?_eq_none.mpr (List.any_eq_false.mp hA')
    have hfind : (kc ++ [newInternetEntry service account password]).find?
          (entryMatches (credKey service account))
        = some (newInternetEntry service account password) := by
      rw [find?_append_of_none _ _ kc hnone]
      rw [List.find?_cons_of_pos _ (by simp [entryMatches, attrMatches, credKey, newInternetEntry])]
    have hone : secItemCopyMatchingOne
        (kc ++ [newInternetEntry service account password])
        (credKey service account)
        = (errSecSuccess, some (newInternetEntry service account password)) := by
      simp [secItemCopyMatchingOne, hfind]
    rw [hset]
    simp [get_password, hone, get_password_core_success, newInternetEntry_data]

/-- Witness for C3 at a concrete input, with an embedded NUL byte (0) in the
secret to show it round-trips verbatim. -/
theorem set_then_get_roundtrip_witness :
    get_password (fun _ => none)
        (set_password (fun _ => none) [] [1] [2] [0, 3] "").2.1 [1] [2] [] "e2"
      = (SUCCESS, [0, 3], "e2") :=
  set_then_get_roundtrip (fun _ => none) (fun _ => none) [] [1] [2] [0, 3] [] ""
    "e2" (by decide)

/-- Claim C4: `set_password` first attempts a backend update against the
exact (service, account) key; exactly on `errSecItemNotFound` it falls back
to `AddPassword`, whose outcome becomes the final result of the call; any other
update failure yields `FAIL_ERROR` with the translated message and the
keychain left by the failed update (no insert is attempted); on update
success the call succeeds without inserting. -/
theorem set_is_update_then_insert_on_miss (msgOf : Int → Option String)
    (kc2 : Keychain) (service account password : Bytes) (err : String)
    (st : Int) :
    (st = errSecItemNotFound →
      set_password_core msgOf st kc2 service account password err
        = AddPassword msgOf kc2 service account password err)
  ∧ (st ≠ errSecItemNotFound → st ≠ errSecSuccess →
      set_password_core msgOf st kc2 service account password err
        = (FAIL_ERROR, kc2, errorStatusToString msgOf st))
  ∧ (st = errSecSuccess →
      set_password_core msgOf st kc2 service account password err
        = (SUCCESS, kc2, err))
  ∧ (∀ kc : Keychain, set_password msgOf kc service account password err
      = set_password_core msgOf
          (secItemUpdate kc (credKey service account) password).1
          (secItemUpdate kc (credKey service account) password).2
          service account password err) := by
  refine ⟨?_, ?_, ?_, fun kc => rfl⟩
  · intro hst
    subst hst
    exact set_password_core_notFound msgOf kc2 service account password err
  · intro h1 h2
    exact set_password_core_error msgOf st kc2 service account password err h1 h2
  · intro hst
    subst hst
    exact set_password_core_success msgOf kc2 service account password err

/-- Witness for C4: on a concrete `errSecItemNotFound` update status the
result of the call is exactly the result of the insert. -/
theorem set_is_update_then_insert_on_miss_witness :
    set_password_core (fun _ => none) errSecItemNotFound [] [1] [2] [3] ""
      = AddPassword (fun _ => none) [] [1] [2] [3] "" :=
  (set_is_update_then_insert_on_miss (fun _ => none) [] [1] [2] [3] ""
    errSecItemNotFound).1 rfl

/-- Claim C5: `get_password`, `delete_password`, `find_password` and
`find_credentials` on a key/service no record matches return
`FAIL_NONFATAL` (never `FAIL_ERROR`), and deleting twice in a row deletes
successfully the first time and returns `FAIL_NONFATAL` the second time. -/
theorem notfound_is_nonfatal :
    (∀ (msgOf : Int → Option String) (kc : Keychain)
        (service account pw0 : Bytes) (err : String),
      kc.find? (entryMatches (credKey service account)) = none →
      get_password msgOf kc service account pw0 err = (FAIL_NONFATAL, pw0, err))
  ∧ (∀ (msgOf : Int → Option String) (kc : Keychain)
        (service account : Bytes) (err : String),
      kc.any (entryMatches (credKey service account)) = false →
      delete_password msgOf kc service account err = (FAIL_NONFATAL, kc, err))
  ∧ (∀ (msgOf : Int → Option String) (kc : Keychain) (service pw0 : Bytes)
        (err : String),
      kc.find? (entryMatches (serviceKey service)) = none →
      find_password msgOf kc service pw0 err = (FAIL_NONFATAL, pw0, err))
  ∧ (∀ (d : Bytes → Bytes) (msgOf : Int → Option String) (kc : Keychain)
        (service : Bytes) (creds : List Credentials) (err : String),
      kc.filter (entryMatches (genericServiceKey service)) = [] →
      find_credentials d msgOf kc service creds err = (FAIL_NONFATAL, creds, err))
  ∧ (∀ (msgOf : Int → Option String) (kc : Keychain) (service account : Bytes)
        (err : String),
      (delete_password msgOf kc service account err).1 = SUCCESS →
      (delete_password msgOf (delete_password msgOf kc service account err).2.1
          service account err).1 = FAIL_NONFATAL) := by
  refine ⟨?_, ?_, ?_, ?_, ?_⟩
  · intro msgOf kc service account pw0 err h
    have hone : secItemCopyMatchingOne kc (credKey service account)
        = (errSecItemNotFound, none) := by
      simp [secItemCopyMatchingOne, h]
    simp [get_password, hone, get_password_core_notFound]
  · intro msgOf kc service account err h
    have hd : secItemDelete kc (credKey service account) = (errSecItemNotFound, kc) := by
      simp [secItemDelete, h]
    simp [delete_password, hd, delete_password_core_notFound]
  · intro msgOf kc service pw0 err h
    have hone : secItemCopyMatchingOne kc (serviceKey service)
        = (errSecItemNotFound, none) := by
      simp [secItemCopyMatchingOne, h]
    simp [find_password, hone, find_password_core_notFound]
  · intro d msgOf kc service creds err h
    have hall : secItemCopyMatchingAll kc (genericServiceKey service)
        = (errSecItemNotFound, []) := by
      simp [secItemCopyMatchingAll, h]
    simp [find_credentials, hall, find_credentials_core_notFound]
  · intro msgOf kc service account err h
    by_cases hA : kc.any (entryMatches (credKey service account)) = true
    · have hd : secItemDelete kc (credKey service account)
          = (errSecSuccess,
             kc.filter (fun e => !(entryMatches (credKey service account) e))) := by
        simp [secItemDelete, hA]
      have h1 : (delete_password msgOf kc service account err).2.1
          = kc.filter (fun e => !(entryMatches (credKey service account) e)) := by
        simp [delete_password, hd, delete_password_core_success]
      rw [h1]
      have hA2 := any_filter_not (entryMatches (credKey service account)) kc
      have hd2 : secItemDelete
          (kc.filter (fun e => !(entryMatches (credKey service account) e)))
          (credKey service account)
          = (errSecItemNotFound,
             kc.filter (fun e => !(entryMatches (credKey service account) e))) := by
        simp [secItemDelete, hA2]
      simp [delete_password, hd2, delete_password_core_notFound]
    · exfalso
      have hA' : kc.any (entryMatches (credKey service account)) = false := by
        simpa using hA
      have hd : secItemDelete kc (credKey service account)
          = (errSecItemNotFound, kc) := by
        simp [secItemDelete, hA']
      rw [show (delete_password msgOf kc service account err).1 = FAIL_NONFATAL by
        simp [delete_password, hd, delete_password_core_notFound]] at h
      exact absurd h (by decide)

/-- Witness for C5: a lookup on the empty keychain is a non-fatal miss. -/
theorem notfound_is_nonfatal_witness :
    get_password (fun _ => none) [] [1] [2] [] "" = (FAIL_NONFATAL, [], "") :=
  notfound_is_nonfatal.1 (fun _ => none) [] [1] [2] [] "" rfl

/-- Claim C6: `get_password` and `find_password` on success return exactly
the raw payload bytes of the single matched record (no text
reinterpretation — the equality holds for arbitrary byte contents,
including NUL and non-UTF-8 bytes); `find_credentials` on success maps
every matched record through the per-item normalizer, and the success
branch of the normalizer produces the (account, secret) `Credentials` shape. -/
theorem single_lookup_raw_bytes_enum_shape :
    (∀ (msgOf : Int → Option String) (kc : Keychain)
        (service account pw0 : Bytes) (err : String),
      (get_password msgOf kc service account pw0 err).1 = SUCCESS →
      ∃ e : Entry, kc.find? (entryMatches (credKey service account)) = some e ∧
        (get_password msgOf kc service account pw0 err).2.1 = e.data)
  ∧ (∀ (msgOf : Int → Option String) (kc : Keychain) (service pw0 : Bytes)
        (err : String),
      (find_password msgOf kc service pw0 err).1 = SUCCESS →
      ∃ e : Entry, kc.find? (entryMatches (serviceKey service)) = some e ∧
        (find_password msgOf kc service pw0 err).2.1 = e.data)
  ∧ (∀ (d : Bytes → Bytes) (msgOf : Int → Option String) (kc : Keychain)
        (service : Bytes) (creds : List Credentials) (err : String),
      (find_credentials d msgOf kc service creds err).1 = SUCCESS →
      (find_credentials d msgOf kc service creds err).2.1
        = creds ++ (kc.filter (entryMatches (genericServiceKey service))).map
            (getCredentialsForItem d kc))
  ∧ (∀ (d : Bytes → Bytes) (acct pay : Bytes),
      getCredentialsForItem_core d acct errSecSuccess pay
        = { account := CFStringToStdString acct,
            password := CFStringToStdString (d pay) }) := by
  refine ⟨?_, ?_, ?_, ?_⟩
  · intro msgOf kc service account pw0 err h
    cases hf : kc.find? (entryMatches (credKey service account)) with
    | none =>
      exfalso
      have hone : secItemCopyMatchingOne kc (credKey service account)
          = (errSecItemNotFound, none) := by
        simp [secItemCopyMatchingOne, hf]
      rw [show (get_password msgOf kc service account pw0 err).1 = FAIL_NONFATAL by
        simp [get_password, hone, get_password_core_notFound]] at h
      exact absurd h (by decide)
    | some e =>
      have hone : secItemCopyMatchingOne kc (credKey service account)
          = (errSecSuccess, some e) := by
        simp [secItemCopyMatchingOne, hf]
      exact ⟨e, rfl, by simp [get_password, hone, get_password_core_success]⟩
  · intro msgOf kc service pw0 err h
    cases hf : kc.find? (entryMatches (serviceKey service)) with
    | none =>
      exfalso
      have hone : secItemCopyMatchingOne kc (serviceKey service)
          = (errSecItemNotFound, none) := by
        simp [secItemCopyMatchingOne, hf]
      rw [show (find_password msgOf kc service pw0 err).1 = FAIL_NONFATAL by
        simp [find_password, hone, find_password_core_notFound]] at h
      exact absurd h (by decide)
    | some e =>
      have hone : secItemCopyMatchingOne kc (serviceKey service)
          = (errSecSuccess, some e) := by
        simp [secItemCopyMatchingOne, hf]
      exact ⟨e, rfl, by simp [find_password, hone, find_password_core_success]⟩
  · intro d msgOf kc service creds err h
    by_cases hfe : kc.filter (entryMatches (genericServiceKey service)) = []
    · exfalso
      have hall : secItemCopyMatchingAll kc (genericServiceKey service)
          = (errSecItemNotFound, []) := by
        simp [secItemCopyMatchingAll, hfe]
      rw [show (find_credentials d msgOf kc service creds err).1 = FAIL_NONFATAL by
        simp [find_credentials, hall, find_credentials_core_notFound]] at h
      exact absurd h (by decide)
    · have hne : (kc.filter (entryMatches (genericServiceKey service))).isEmpty
          = false := by
        cases hE : (kc.filter (entryMatches (genericServiceKey service))).isEmpty with
        | true => exact absurd (List.isEmpty_iff.mp hE) hfe
        | false => rfl
      have hall : secItemCopyMatchingAll kc (genericServiceKey service)
          = (errSecSuccess, kc.filter (entryMatches (genericServiceKey service))) := by
        simp [secItemCopyMatchingAll, hne]
      simp [find_credentials, hall, find_credentials_core_success]
  · intro d acct pay
    exact getCredentialsForItem_core_success d acct pay

/-- Witness for C6 at a one-record keychain whose secret contains a NUL
byte and a byte that is not valid UTF-8 text (255). -/
theorem single_lookup_raw_bytes_enum_shape_witness :
    ∃ e : Entry,
      ([newInternetEntry [1] [2] [0, 255]].find?
          (entryMatches (credKey [1] [2]))) = some e ∧
      (get_password (fun _ => none) [newInternetEntry [1] [2] [0, 255]]
          [1] [2] [] "").2.1 = e.data :=
  single_lookup_raw_bytes_enum_shape.1 (fun _ => none)
    [newInternetEntry [1] [2] [0, 255]] [1] [2] [] "" (by decide)

/-- Claim C7: when the per-item lookup inside `getCredentialsForItem` fails
(any status other than `errSecSuccess`), the default-constructed empty
`Credentials` value is produced for that item, and the enumeration loop of
`find_credentials` still appends one credential per returned item (no item
is skipped and the call does not turn into an error). -/
theorem enum_item_failure_appends_default :
    (∀ (d : Bytes → Bytes) (acct : Bytes) (st : Int) (pay : Bytes),
      st ≠ errSecSuccess →
      getCredentialsForItem_core d acct st pay = { account := [], password := [] })
  ∧ (∀ (msgOf : Int → Option String) (perItem : Entry → Credentials)
        (results : List Entry) (creds : List Credentials) (err : String),
      find_credentials_core msgOf perItem errSecSuccess results creds err
        = (SUCCESS, creds ++ results.map perItem, err)
      ∧ ((find_credentials_core msgOf perItem errSecSuccess results creds err).2.1).length
          = creds.length + results.length) := by
  refine ⟨?_, ?_⟩
  · intro d acct st pay h
    exact getCredentialsForItem_core_failure d acct st pay h
  · intro msgOf perItem results creds err
    refine ⟨find_credentials_core_success msgOf perItem results creds err, ?_⟩
    rw [find_credentials_core_success msgOf perItem results creds err]
    simp

/-- Witness for C7: a failed per-item lookup yields the default credential. -/
theorem enum_item_failure_appends_default_witness :
    getCredentialsForItem_core (fun b => b) [5] errSecItemNotFound [9]
      = { account := [], password := [] } :=
  enum_item_failure_appends_default.1 (fun b => b) [5] errSecItemNotFound [9]
    (by decide)

/-- Claim C8: every operation that returns `FAIL_ERROR` sets the error
out-parameter to `errorStatusToString` of the failing status, which is the
description of the backend when one is available and the generic
"An unknown error occurred." string otherwise; the message is never empty
as long as the backend never supplies an empty description. -/
theorem error_carries_backend_message :
    (∀ (msgOf : Int → Option String) (st : Int),
      errorStatusToString msgOf st = (msgOf st).getD "An unknown error occurred.")
  ∧ (∀ (msgOf : Int → Option String) (st : Int), msgOf st ≠ some "" →
      errorStatusToString msgOf st ≠ "")
  ∧ (∀ (msgOf : Int → Option String) (st : Int) (pay pw : Bytes) (err : String),
      st ≠ errSecSuccess → st ≠ errSecItemNotFound →
      get_password_core msgOf st pay pw err
        = (FAIL_ERROR, pw, errorStatusToString msgOf st))
  ∧ (∀ (msgOf : Int → Option String) (st : Int) (pay pw : Bytes) (err : String),
      st ≠ errSecSuccess → st ≠ errSecItemNotFound →
      find_password_core msgOf st pay pw err
        = (FAIL_ERROR, pw, errorStatusToString msgOf st))
  ∧ (∀ (msgOf : Int → Option String) (st : Int) (kc2 : Keychain) (err : String),
      st ≠ errSecSuccess → st ≠ errSecItemNotFound →
      delete_password_core msgOf st kc2 err
        = (FAIL_ERROR, kc2, errorStatusToString msgOf st))
  ∧ (∀ (msgOf : Int → Option String) (st : Int) (kc2 : Keychain)
        (service account password : Bytes) (err : String),
      st ≠ errSecSuccess → st ≠ errSecItemNotFound →
      set_password_core msgOf st kc2 service account password err
        = (FAIL_ERROR, kc2, errorStatusToString msgOf st))
  ∧ (∀ (msgOf : Int → Option String) (st : Int) (kc2 : Keychain) (err : String),
      st ≠ errSecSuccess →
      AddPassword_core msgOf st kc2 err
        = (FAIL_ERROR, kc2, errorStatusToString msgOf st))
  ∧ (∀ (msgOf : Int → Option String) (perItem : Entry → Credentials) (st : Int)
        (results : List Entry) (creds : List Credentials) (err : String),
      st ≠ errSecSuccess → st ≠ errSecItemNotFound →
      find_credentials_core msgOf perItem st results creds err
        = (FAIL_ERROR, creds, errorStatusToString msgOf st)) := by
  refine ⟨?_, ?_, ?_, ?_, ?_, ?_, ?_, ?_⟩
  · intro msgOf st
    cases hm : msgOf st with
    | none => simp [errorStatusToString, hm]
    | some s => simp [errorStatusToString, hm]
  · intro msgOf st hne
    cases hm : msgOf st with
    | none =>
      rw [show errorStatusToString msgOf st = "An unknown error occurred." by
        simp [errorStatusToString, hm]]
      decide
    | some s =>
      rw [show errorStatusToString msgOf st = s by simp [errorStatusToString, hm]]
      intro hs
      exact hne (hs ▸ hm)
  · intro msgOf st pay pw err h1 h2
    exact get_password_core_error msgOf st pay pw err h2 h1
  · intro msgOf st pay pw err h1 h2
    exact find_password_core_error msgOf st pay pw err h2 h1
  · intro msgOf st kc2 err h1 h2
    exact delete_password_core_error msgOf st kc2 err h2 h1
  · intro msgOf st kc2 service account password err h1 h2
    exact set_password_core_error msgOf st kc2 service account password err h2 h1
  · intro msgOf st kc2 err h
    exact AddPassword_core_error msgOf st kc2 err h
  · intro msgOf perItem st results creds err h1 h2
    exact find_credentials_core_error msgOf perItem st results creds err h1 h2

/-- Witness for C8 at a concrete failure status with a backend-supplied
description. -/
theorem error_carries_backend_message_witness :
    get_password_core (fun _ => some "boom") errSecDuplicateItem [] [] ""
      = (FAIL_ERROR, [],
         errorStatusToString (fun _ => some "boom") errSecDuplicateItem) :=
  error_carries_backend_message.2.2.1 (fun _ => some "boom") errSecDuplicateItem
    [] [] "" (by decide) (by decide)

/-- Claim C9: on every non-success outcome of `get_password` and
`find_password` (both the `FAIL_NONFATAL` and the `FAIL_ERROR` branch) the
caller-supplied output secret is returned completely unchanged; it is
written only on the success path. -/
theorem no_partial_secret_on_failure :
    (∀ (msgOf : Int → Option String) (st : Int) (pay pw : Bytes) (err : String),
      st ≠ errSecSuccess → (get_password_core msgOf st pay pw err).2.1 = pw)
  ∧ (∀ (msgOf : Int → Option String) (st : Int) (pay pw : Bytes) (err : String),
      st ≠ errSecSuccess → (find_password_core msgOf st pay pw err).2.1 = pw)
  ∧ (∀ (msgOf : Int → Option String) (kc : Keychain)
        (service account pw : Bytes) (err : String),
      (get_password msgOf kc service account pw err).1 ≠ SUCCESS →
      (get_password msgOf kc service account pw err).2.1 = pw)
  ∧ (∀ (msgOf : Int → Option String) (kc : Keychain) (service pw : Bytes)
        (err : String),
      (find_password msgOf kc service pw err).1 ≠ SUCCESS →
      (find_password msgOf kc service pw err).2.1 = pw) := by
  refine ⟨?_, ?_, ?_, ?_⟩
  · intro msgOf st pay pw err h
    by_cases h1 : st = errSecItemNotFound
    · subst h1
      rw [get_password_core_notFound]
    · rw [get_password_core_error msgOf st pay pw err h1 h]
  · intro msgOf st pay pw err h
    by_cases h1 : st = errSecItemNotFound
    · subst h1
      rw [find_password_core_notFound]
    · rw [find_password_core_error msgOf st pay pw err h1 h]
  · intro msgOf kc service account pw err h
    cases hf : kc.find? (entryMatches (credKey service account)) with
    | none =>
      have hone : secItemCopyMatchingOne kc (credKey service account)
          = (errSecItemNotFound, none) := by
        simp [secItemCopyMatchingOne, hf]
      simp [get_password, hone, get_password_core_notFound]
    | some e =>
      exfalso
      have hone : secItemCopyMatchingOne kc (credKey service account)
          = (errSecSuccess, some e) := by
        simp [secItemCopyMatchingOne, hf]
      exact h (by simp [get_password, hone, get_password_core_success])
  · intro msgOf kc service pw err h
    cases hf : kc.find? (entryMatches (serviceKey service)) with
    | none =>
      have hone : secItemCopyMatchingOne kc (serviceKey service)
          = (errSecItemNotFound, none) := by
        simp [secItemCopyMatchingOne, hf]
      simp [find_password, hone, find_password_core_notFound]
    | some e =>
      exfalso
      have hone : secItemCopyMatchingOne kc (serviceKey service)
          = (errSecSuccess, some e) := by
        simp [secItemCopyMatchingOne, hf]
      exact h (by simp [find_password, hone, find_password_core_success])

/-- Witness for C9 on a concrete miss: the output buffer keeps its previous
contents. -/
theorem no_partial_secret_on_failure_witness :
    (get_password_core (fun _ => none) errSecItemNotFound [9] [7] "").2.1 = [7] :=
  no_partial_secret_on_failure.1 (fun _ => none) errSecItemNotFound [9] [7] ""
    (by decide)

/-- A NUL-free prefix survives `.c_str()` truncation and everything after
the first NUL byte is dropped. -/
theorem cstr_append_nul (y : Bytes) :
    ∀ x : Bytes, (∀ b ∈ x, b ≠ 0) → cstr (x ++ 0 :: y) = x
  | [], _ => by simp [cstr]
  | b :: x, h => by
    have hb : (b != 0) = true := by
      simpa using h b (List.mem_cons_self b x)
    have ih := cstr_append_nul y x (fun c hc => h c (List.mem_cons_of_mem b hc))
    simp only [List.cons_append, cstr, List.takeWhile_cons, hb, if_true]
    rw [show List.takeWhile (fun b => b != 0) (x ++ 0 :: y) = cstr (x ++ 0 :: y)
      from rfl, ih]

/-- Claim C10: service and account reach the backend in `.c_str()` form so
they are truncated at the first embedded NUL byte — two inputs agreeing up
to their first NUL drive every operation identically — while the secret is
passed with an explicit byte length: the record `AddPassword` stores keeps
the full password bytes, embedded NULs included. -/
theorem cstring_truncation_semantics :
    (∀ (x y : Bytes), (∀ b ∈ x, b ≠ 0) → cstr (x ++ 0 :: y) = x)
  ∧ (∀ (s1 s2 a1 a2 : Bytes), cstr s1 = cstr s2 → cstr a1 = cstr a2 →
      (∀ (msgOf : Int → Option String) (kc : Keychain) (pw : Bytes) (err : String),
        set_password msgOf kc s1 a1 pw err = set_password msgOf kc s2 a2 pw err)
    ∧ (∀ (msgOf : Int → Option String) (kc : Keychain) (pw0 : Bytes) (err : String),
        get_password msgOf kc s1 a1 pw0 err = get_password msgOf kc s2 a2 pw0 err)
    ∧ (∀ (msgOf : Int → Option String) (kc : Keychain) (err : String),
        delete_password msgOf kc s1 a1 err = delete_password msgOf kc s2 a2 err)
    ∧ (∀ (msgOf : Int → Option String) (kc : Keychain) (pw0 : Bytes) (err : String),
        find_password msgOf kc s1 pw0 err = find_password msgOf kc s2 pw0 err)
    ∧ (∀ (d : Bytes → Bytes) (msgOf : Int → Option String) (kc : Keychain)
          (creds : List Credentials) (err : String),
        find_credentials d msgOf kc s1 creds err
          = find_credentials d msgOf kc s2 creds err))
  ∧ (∀ (msgOf : Int → Option String) (kc : Keychain)
        (service account password : Bytes) (err : String),
      kc.any (entryMatches (credKey service account)) = false →
      (AddPassword msgOf kc service account password err).2.1
        = kc ++ [newInternetEntry service account password]
      ∧ (newInternetEntry service account password).data = password) := by
  refine ⟨fun x y h => cstr_append_nul y x h, ?_, ?_⟩
  · intro s1 s2 a1 a2 h1 h2
    refine ⟨?_, ?_, ?_, ?_, ?_⟩
    · intro msgOf kc pw err
      simp only [set_password, set_password_core, AddPassword, AddPassword_core,
        newInternetEntry, credKey, h1, h2]
    · intro msgOf kc pw0 err
      simp only [get_password, credKey, h1, h2]
    · intro msgOf kc err
      simp only [delete_password, credKey, h1, h2]
    · intro msgOf kc pw0 err
      simp only [find_password, serviceKey, h1]
    · intro d msgOf kc creds err
      simp only [find_credentials, genericServiceKey, h1]
  · intro msgOf kc service account password err h
    refine ⟨?_, rfl⟩
    rw [AddPassword_fresh msgOf kc service account password err h]

/-- Witness for C10: a concrete truncation at an embedded NUL byte. -/
theorem cstring_truncation_semantics_witness :
    cstr ([1] ++ 0 :: [7]) = [1] :=
  cstring_truncation_semantics.1 [1] [7] (by decide)

end libcred